import Mathlib

/-!
Shallow embedding of the StoryTime repository's heuristic story synthesizer
(`src/lib/ai/huggingface.ts`, `generateTemplateStory` and `parseStoryJSON`)
and of the scene-to-video assembler
(`src/lib/video/ffmpeg-generator.ts`, `FFmpegVideoGenerator.generateVideo`).

JS strings are modelled as Lean `String`s (operating on their `List Char`
data), JS numbers used for progress values as `ℚ`, and the regular
expressions of the character-extraction heuristic as executable scanners
that follow the leftmost-match, greedy semantics of the concrete patterns
in the source.
-/

/-! ### Basic data model (StoryDraft / SceneDraft, from the source shapes) -/

structure DialogueLine where
  character : String
  text : String
deriving DecidableEq, Repr

structure Scene where
  number : Nat
  title : String
  setting : String
  narration : String
  dialogue : List DialogueLine
  actions : List String
deriving DecidableEq, Repr

structure CharacterInfo where
  name : String
  description : String
  personality : String
deriving DecidableEq, Repr

structure StoryDraft where
  title : String
  characters : List CharacterInfo
  scenes : List Scene
deriving DecidableEq, Repr

def dummyScene : Scene := { number := 0, title := "", setting := "", narration := "", dialogue := [], actions := [] }

/-! ### String helpers mirroring the JS operations used by the source -/

/-- JS `\w` character class: `[A-Za-z0-9_]`. -/
def isWordChar (c : Char) : Bool := c.isAlpha || c.isDigit || c == '_'

/-- JS `String.prototype.toLowerCase` on the ASCII strings the source uses. -/
def lowerStr (s : String) : String := String.mk (s.data.map Char.toLower)

/-- JS `s.substring(0, n)`. -/
def jsSubstring (s : String) (n : Nat) : String := String.mk (s.data.take n)

/-- JS `s.trim()`: strip leading and trailing whitespace. -/
def jsTrim (s : String) : String :=
  String.mk (((s.data.dropWhile Char.isWhitespace).reverse.dropWhile Char.isWhitespace).reverse)

/-- JS `s.includes(pat)`: substring containment, case sensitive. -/
def containsSubstr (s pat : String) : Bool :=
  s.data.tails.any (fun t => pat.data.isPrefixOf t)

/-- Case-insensitive literal prefix match (for `/i` regex literals);
returns the remaining input on success. The literal is given lowercase. -/
def stripPrefixCI : List Char → List Char → Option (List Char)
  | [], s => some s
  | _ :: _, [] => none
  | p :: ps, c :: cs => if c.toLower == p then stripPrefixCI ps cs else none

/-- Case-sensitive literal prefix match; returns the remaining input. -/
def stripPrefixCS : List Char → List Char → Option (List Char)
  | [], s => some s
  | _ :: _, [] => none
  | p :: ps, c :: cs => if c == p then stripPrefixCS ps cs else none

/-- Scan a matcher over every start position, leftmost match wins
(JS `String.prototype.match` with a non-anchored, non-global regex). -/
def firstMatch {α : Type} (f : List Char → Option α) : List Char → Option α
  | [] => f []
  | c :: rest =>
    match f (c :: rest) with
    | some r => some r
    | none => firstMatch f rest

/-- Greedy `(\w+)` capture at the current position (`none` when empty). -/
def wordCapture (s : List Char) : Option (String × List Char) :=
  let w := s.takeWhile isWordChar
  if w.isEmpty then none else some (String.mk w, s.dropWhile isWordChar)

/-- Greedy `\s+` (requires at least one whitespace char). -/
def wsPlus (s : List Char) : Option (List Char) :=
  if (s.takeWhile Char.isWhitespace).isEmpty then none
  else some (s.dropWhile Char.isWhitespace)

/-! ### The character-extraction regexes of `generateTemplateStory`
(src/lib/ai/huggingface.ts lines 143-172), one scanner per pattern. -/

/-- `/two\s+(\w+)(?:\s+and\s+(\w+))?/i` matched at the current position. -/
def matchTwoAt (s : List Char) : Option (String × Option String) :=
  match stripPrefixCI "two".data s with
  | none => none
  | some r1 =>
    match wsPlus r1 with
    | none => none
    | some r2 =>
      match wordCapture r2 with
      | none => none
      | some (w1, r3) =>
        let opt : Option String :=
          match wsPlus r3 with
          | none => none
          | some r4 =>
            match stripPrefixCI "and".data r4 with
            | none => none
            | some r5 =>
              match wsPlus r5 with
              | none => none
              | some r6 =>
                match wordCapture r6 with
                | none => none
                | some (w2, _) => some w2
        some (w1, opt)

def twoMatch (prompt : String) : Option (String × Option String) :=
  firstMatch matchTwoAt prompt.data

/-- Tail `\s*(\w+)` of pattern 1. -/
def p1Finish (s : List Char) : Option String :=
  (wordCapture (s.dropWhile Char.isWhitespace)).map Prod.fst

/-- Optional adjective `(?:brave|little|young|curious)?` of pattern 1,
each present-alternative tried in order before the absent case. -/
def p1Adjective (s : List Char) : Option String :=
  (match stripPrefixCI "brave".data s with
   | some r => p1Finish r
   | none => none).orElse (fun _ =>
  (match stripPrefixCI "little".data s with
   | some r => p1Finish r
   | none => none).orElse (fun _ =>
  (match stripPrefixCI "young".data s with
   | some r => p1Finish r
   | none => none).orElse (fun _ =>
  (match stripPrefixCI "curious".data s with
   | some r => p1Finish r
   | none => none).orElse (fun _ => p1Finish s))))

/-- Optional article `(?:a\s+)?` of pattern 1 (present, then absent). -/
def p1Article (s : List Char) : Option String :=
  (match stripPrefixCI "a".data s with
   | some r =>
     match wsPlus r with
     | some r2 => p1Adjective r2
     | none => none
   | none => none).orElse (fun _ => p1Adjective s)

def matchP1With (lit : String) (s : List Char) : Option String :=
  match stripPrefixCI lit.data s with
  | none => none
  | some r1 =>
    match wsPlus r1 with
    | none => none
    | some r2 => p1Article r2

/-- `/(?:about|featuring)\s+(?:a\s+)?(?:brave|little|young|curious)?\s*(\w+)/i`. -/
def matchP1At (s : List Char) : Option String :=
  (matchP1With "about" s).orElse (fun _ => matchP1With "featuring" s)

/-- `/(\w+)\s+(?:who|that|goes|learns|discovers|wants|likes)/i`. -/
def matchP2At (s : List Char) : Option String :=
  match wordCapture s with
  | none => none
  | some (w, r1) =>
    match wsPlus r1 with
    | none => none
    | some r2 =>
      if ["who", "that", "goes", "learns", "discovers", "wants", "likes"].any
          (fun lit => (stripPrefixCI lit.data r2).isSome)
      then some w else none

/-- Optional article `(?:a\s+)?` of pattern 3, followed by `(\w+)`. -/
def p3Article (s : List Char) : Option String :=
  (match stripPrefixCI "a".data s with
   | some r =>
     match wsPlus r with
     | some r2 => (wordCapture r2).map Prod.fst
     | none => none
   | none => none).orElse (fun _ => (wordCapture s).map Prod.fst)

def matchP3With (lit : String) (s : List Char) : Option String :=
  match stripPrefixCI lit.data s with
  | none => none
  | some r1 =>
    match wsPlus r1 with
    | none => none
    | some r2 => p3Article r2

/-- `/(?:story of|tale of)\s+(?:a\s+)?(\w+)/i`. -/
def matchP3At (s : List Char) : Option String :=
  (matchP3With "story of" s).orElse (fun _ => matchP3With "tale of" s)

def matchP4With (lit : String) (s : List Char) : Option String :=
  match stripPrefixCI lit.data s with
  | none => none
  | some r1 =>
    match wsPlus r1 with
    | none => none
    | some r2 =>
      match wordCapture r2 with
      | none => none
      | some (w, r3) =>
        match wsPlus r3 with
        | none => none
        | some r4 =>
          if (stripPrefixCI "and".data r4).isSome || (stripPrefixCI "with".data r4).isSome
          then some w else none

/-- `/(?:a|the)\s+(\w+)\s+(?:and|with)/i`. -/
def matchP4At (s : List Char) : Option String :=
  (matchP4With "a" s).orElse (fun _ => matchP4With "the" s)

/-! ### Character extraction (`generateTemplateStory`, lines 140-183) -/

/-- `w.charAt(0).toUpperCase() + w.slice(1).toLowerCase()`. -/
def capFull (w : String) : String :=
  match w.data with
  | [] => ""
  | c :: rest => String.mk (c.toUpper :: rest.map Char.toLower)

/-- The source's line 148 as written:
`w.charAt(0).toUpperCase() + w.slice(1).slice(1).toLowerCase()` —
note the doubled `slice(1)`, which drops the second character. -/
def capDropSecond (w : String) : String :=
  match w.data with
  | [] => ""
  | c :: rest => String.mk (c.toUpper :: (rest.drop 1).map Char.toLower)

/-- JS `prompt.split(/\s+/)`: maximal non-whitespace runs, with an empty
token at an edge that starts or ends with whitespace, and `[""]` on `""`. -/
def splitRunsAux : List Char → List Char → List (List Char)
  | [], acc => if acc.isEmpty then [] else [acc.reverse]
  | c :: rest, acc =>
    if c.isWhitespace then
      if acc.isEmpty then splitRunsAux rest []
      else acc.reverse :: splitRunsAux rest []
    else splitRunsAux rest (c :: acc)

def jsSplitWs (s : String) : List String :=
  if s.data.isEmpty then [""]
  else
    let lead := if Option.any Char.isWhitespace s.data.head? then [""] else []
    let trail := if Option.any Char.isWhitespace s.data.getLast? then [""] else []
    lead ++ (splitRunsAux s.data []).map String.mk ++ trail

/-- The four `characterPatterns` applied in order (lines 156-171). -/
def patternMatches (prompt : String) : List (Option String) :=
  [firstMatch matchP1At prompt.data,
   firstMatch matchP2At prompt.data,
   firstMatch matchP3At prompt.data,
   firstMatch matchP4At prompt.data]

/-- Character-name extraction of `generateTemplateStory` (lines 140-183). -/
def extractCharacters (prompt : String) : List String :=
  match twoMatch prompt with
  | some (w1, ow2) =>
    match ow2 with
    | some w2 => [capFull w1, capDropSecond w2]
    | none => [capFull w1 ++ " One", capFull w1 ++ " Two"]
  | none =>
    let chars := (patternMatches prompt).foldl (fun acc om =>
      match om with
      | some w =>
        if w.length > 2 then
          let name := capFull w
          if acc.contains name then acc else acc ++ [name]
        else acc
      | none => acc) []
    if chars.isEmpty then
      let words := (jsSplitWs prompt).filter (fun w => w.length > 4)
      match words with
      | w :: _ => [capFull (String.mk (w.data.filter Char.isAlpha))]
      | [] => ["Hero"]
    else chars

/-! ### Themes, templates and scene assembly (`generateTemplateStory`, lines 187-298) -/

structure Themes where
  action : Bool
  friendship : Bool
  learning : Bool
  magic : Bool
  problem : Bool
deriving DecidableEq, Repr

def containsAny (s : String) (ks : List String) : Bool := ks.any (fun k => containsSubstr s k)

/-- Theme detection on the lowercased prompt (lines 191-197). -/
def themesOf (prompt : String) : Themes :=
  let lowerPrompt := lowerStr prompt
  { action := containsAny lowerPrompt ["adventure", "explore", "discover", "find", "search", "quest"]
  , friendship := containsAny lowerPrompt ["friend", "together", "help", "love", "care", "bond"]
  , learning := containsAny lowerPrompt ["learn", "discover", "understand", "teach", "grow"]
  , magic := containsAny lowerPrompt ["magic", "magical", "enchant", "spell", "wonder"]
  , problem := containsAny lowerPrompt ["problem", "challenge", "overcome", "solve", "fix"] }

/-- `characters.length > 1 ? characters.join(" and ") : mainChar` (line 188). -/
def charListOf (characters : List String) : String :=
  if characters.length > 1 then String.intercalate " and " characters else characters.headD ""

/-- The verb suffix `characters.length === 1 ? "s" : ""`. -/
def verbSuffix (characters : List String) : String :=
  if characters.length == 1 then "s" else ""

structure SceneVariation where
  setting : String
  action : String
deriving DecidableEq, Repr

def dummyVariation : SceneVariation := { setting := "", action := "" }

/-- The `sceneVariations` array (lines 200-221). -/
def sceneVariations (themes : Themes) (charList vs : String) : List SceneVariation :=
  [ { setting := if themes.magic then "A magical forest filled with wonder" else "A sunny meadow full of surprises"
    , action := charList ++ " set" ++ vs ++ " out on an exciting journey" }
  , { setting := if themes.friendship then "A place where new friends gather" else "An interesting location to explore"
    , action := charList ++ " meet" ++ vs ++ " someone who needs help" }
  , { setting := if themes.problem then "A tricky situation appears" else "Things get more interesting"
    , action := charList ++ " discover" ++ vs ++ " a challenge to overcome" }
  , { setting := if themes.learning then "A moment of discovery" else "The adventure continues"
    , action := charList ++ " learn" ++ vs ++ " something important" }
  , { setting := "The perfect place for celebration"
    , action := charList ++ " succeed" ++ vs ++ " and everyone is happy" } ]

structure AgeTemplate where
  intro : String
  middle : String
  endLine : String
deriving DecidableEq, Repr

/-- The `templates` table and `templates[ageGroup] || templates.preschool`
lookup (lines 223-243). -/
def templateFor (ageGroup prompt charList : String) : AgeTemplate :=
  if ageGroup == "toddler" then
    { intro := "Once upon a time, " ++ charList ++ " loved to play and explore together."
    , middle := charList ++ " discovered something wonderful and made new friends along the way."
    , endLine := "Everyone was happy and " ++ charList ++ " learned something new! The end!" }
  else if ageGroup == "elementary" then
    { intro := charList ++ " lived in an interesting world and wanted to " ++
        (if containsSubstr prompt "find" then "find something special" else "go on an adventure") ++ "."
    , middle := "Through creativity and determination, " ++ charList ++ " worked together to overcome obstacles."
    , endLine := charList ++ " achieved their goal and learned that teamwork and courage make anything possible!" }
  else
    { intro := "In a magical place, " ++ charList ++ " began an exciting adventure together."
    , middle := charList ++ " faced a challenge but didn't give up, working together."
    , endLine := "With help from friends, " ++ charList ++ " succeeded and everyone celebrated!" }

def openingExclamation : String := "Let's go on an adventure!"

def middleExclamations : List String :=
  ["We can do this!", "This is exciting!", "Let's keep going!", "I have an idea!"]

def middleTitles : List String := ["The Journey", "New Friends", "The Challenge", "Discovery"]

/-- Opening scene (lines 249-256). -/
def openingScene (themes : Themes) (characters : List String) (charList vs : String)
    (template : AgeTemplate) : Scene :=
  { number := 1
  , title := "The Beginning"
  , setting := if themes.magic then "A magical world full of wonder" else "A beautiful place ready for adventure"
  , narration := template.intro
  , dialogue := characters.map (fun c => { character := c, text := openingExclamation })
  , actions := [charList ++ " look" ++ vs ++ " around with excitement"] }

/-- Middle scene for loop index `i` (lines 259-274); the variation index is
`Math.min(i + 1, sceneVariations.length - 2)`. -/
def middleScene (vars : List SceneVariation) (characters : List String)
    (template : AgeTemplate) (i : Nat) : Scene :=
  let variation := vars.getD (min (i + 1) (vars.length - 2)) dummyVariation
  { number := i + 2
  , title := "Scene " ++ toString (i + 2) ++ ": " ++ middleTitles.getD i "Adventure"
  , setting := variation.setting
  , narration := if i == 0 then template.middle else variation.action
  , dialogue := [ { character := characters.getD (i % characters.length) ""
                  , text := middleExclamations.getD (i % 4) "" } ]
  , actions := [variation.action] }

/-- Ending scene (lines 277-284). -/
def endingScene (characters : List String) (charList vs : String)
    (template : AgeTemplate) (sceneCount : Nat) : Scene :=
  { number := sceneCount
  , title := "The Happy Ending"
  , setting := "A wonderful place where everyone celebrates together"
  , narration := template.endLine
  , dialogue := [ { character := characters.headD "", text := "What an amazing adventure!" } ]
  , actions := [charList ++ " celebrate" ++ vs ++ " happily with all their friends"] }

/-- The template-based story synthesizer `generateTemplateStory(prompt,
sceneCount, style, ageGroup)` (src/lib/ai/huggingface.ts lines 133-299).
`style` is accepted but unused, exactly as in the source body. -/
def generateTemplateStory (prompt : String) (sceneCount : Nat) (style ageGroup : String) : StoryDraft :=
  let characters := extractCharacters prompt
  let themes := themesOf prompt
  let charList := charListOf characters
  let vs := verbSuffix characters
  let vars := sceneVariations themes charList vs
  let template := templateFor ageGroup prompt charList
  let scenes := openingScene themes characters charList vs template ::
    ((List.range (sceneCount - 2)).map (middleScene vars characters template) ++
      [endingScene characters charList vs template sceneCount])
  { title :=
      let t := jsTrim (jsSubstring prompt 60)
      if t == "" then "The Adventure of " ++ charList else t
  , characters := characters.map (fun name =>
      { name := name
      , description := name ++ " is a " ++ (if themes.friendship then "friendly" else "brave") ++
          " character who loves " ++ (if themes.action then "adventures" else "making friends")
      , personality := "brave, curious, and kind" })
  , scenes := scenes }

/-! ### `parseStoryJSON` (src/lib/ai/huggingface.ts lines 403-423).
`JSON.parse` is an external JS builtin; it is abstracted as an oracle
`jsonParse : String → Option J` (`none` models a parse exception). -/

/-- Content before the first occurrence of `marker` (the lazy `[\s\S]*?`
up to the closing fence), `none` when `marker` never occurs. -/
def firstInfixSplit (marker : List Char) : List Char → Option (List Char)
  | [] => none
  | c :: rest =>
    if marker.isPrefixOf (c :: rest) then some []
    else (firstInfixSplit marker rest).map (c :: ·)

/-- One fenced-block regex (open fence, lazy body, close fence) matched at
the current position. -/
def matchFenceAt (openMark closeMark : List Char) (s : List Char) : Option String :=
  match stripPrefixCS openMark s with
  | none => none
  | some r => (firstInfixSplit closeMark r).map String.mk

/-- `response.match(/```json\n([\s\S]*?)\n```/) || response.match(/```\n([\s\S]*?)\n```/)`,
returning the first capture group. -/
def extractFencedJson (response : String) : Option String :=
  match firstMatch (matchFenceAt "```json\n".data "\n```".data) response.data with
  | some m => some m
  | none => firstMatch (matchFenceAt "```\n".data "\n```".data) response.data

structure ParseFallback where
  title : String
  characters : List CharacterInfo
  scenes : List Scene
  error : String
deriving DecidableEq, Repr

def parseFallbackStory : ParseFallback :=
  { title := "Generated Story", characters := [], scenes := [], error := "Failed to parse AI response" }

/-- `parseStoryJSON(response)`: try the fenced block (if any) and otherwise
the whole response; any parse failure yields the fixed fallback object. -/
def parseStoryJSON {J : Type} (jsonParse : String → Option J) (response : String) : J ⊕ ParseFallback :=
  match extractFencedJson response with
  | some inner =>
    match jsonParse inner with
    | some j => Sum.inl j
    | none => Sum.inr parseFallbackStory
  | none =>
    match jsonParse response with
    | some j => Sum.inl j
    | none => Sum.inr parseFallbackStory

/-! ### Scene-to-video assembler (`FFmpegVideoGenerator.generateVideo`,
src/lib/video/ffmpeg-generator.ts lines 29-326).

External effects (network fetches via `fetchFile`, `ffmpeg.exec`
invocations, engine loading) are abstracted by a success environment;
the delivered `onProgress` events and the returned result are modelled
explicitly. Progress values (JS numbers such as `10 + (i / n) * 30`)
are modelled as rationals. -/

inductive Stage where
  | loading
  | preparing
  | encoding
  | finalizing
  | complete
deriving DecidableEq, Repr

/-- The order `loading < preparing < encoding < finalizing < complete`. -/
def stageIdx : Stage → Nat
  | .loading => 0
  | .preparing => 1
  | .encoding => 2
  | .finalizing => 3
  | .complete => 4

structure ProgressEvent where
  stage : Stage
  progress : ℚ
  message : String
deriving DecidableEq, Repr

structure VideoScene where
  imageUrl : String
  duration : ℚ
  audioUrl : Option String
deriving DecidableEq, Repr

/-- Success/failure of the external steps of one `generateVideo` run:
`fetchOk url` for `fetchFile(url)`, `segmentOk i` for the per-scene encode
`exec`, `concatOk` for the concat `exec`, `audioMergeOk` for the audio
merge `exec`(s), `loadOk` for `ffmpeg.load`. -/
structure FFmpegEnv where
  fetchOk : String → Bool
  segmentOk : Nat → Bool
  concatOk : Bool
  audioMergeOk : Bool
  loadOk : Bool

/-- Provenance of the returned bytes: the audio-muxed `final_output.mp4`,
or the silent concatenated `output_video.mp4` from the video pass. -/
inductive VideoOutput where
  | muxed
  | silent
deriving DecidableEq, Repr

def loadStartEvent : ProgressEvent := { stage := .loading, progress := 0, message := "Loading FFmpeg engine..." }

def loadDoneEvent : ProgressEvent := { stage := .loading, progress := 100, message := "FFmpeg loaded successfully" }

def prepStartEvent : ProgressEvent := { stage := .preparing, progress := 10, message := "Downloading scene images..." }

/-- Event after downloading scene `i` of `n` (lines 103-107). -/
def prepEvent (n i : Nat) : ProgressEvent :=
  { stage := .preparing
  , progress := 10 + ((i : ℚ) / (n : ℚ)) * 30
  , message := "Loading scene " ++ toString (i + 1) ++ " of " ++ toString n ++ "..." }

def encStartEvent : ProgressEvent := { stage := .encoding, progress := 50, message := "Generating video..." }

/-- Event after encoding segment `i` of `n` (lines 160-164). -/
def encEvent (n i : Nat) : ProgressEvent :=
  { stage := .encoding
  , progress := 50 + ((i : ℚ) / (n : ℚ)) * 20
  , message := "Encoding scene " ++ toString (i + 1) ++ " of " ++ toString n ++ "..." }

def combineEvent : ProgressEvent := { stage := .encoding, progress := 70, message := "Combining scenes..." }

def audioEvent : ProgressEvent := { stage := .encoding, progress := 75, message := "Adding audio tracks..." }

def finalizeEvent : ProgressEvent := { stage := .finalizing, progress := 90, message := "Finalizing video..." }

def completeEvent : ProgressEvent := { stage := .complete, progress := 100, message := "Video generated successfully!" }

def imageFailMsg (k : Nat) : String :=
  "Failed to load scene " ++ toString k ++ " image. Please ensure all images are generated."

def encodeFailMsg (k : Nat) : String :=
  "Failed to encode scene " ++ toString k ++ ". Check that the image was loaded correctly."

def concatFailMsg : String := "Failed to combine video scenes. This may be due to codec incompatibilities."

def loadFailMsg : String := "Failed to load video encoder. Please try again."

/-- The image-download loop (lines 92-108): events delivered, and the
thrown error message if some `fetchFile(scene.imageUrl)` fails. -/
def imageLoop (env : FFmpegEnv) (n : Nat) : List VideoScene → Nat → List ProgressEvent × Option String
  | [], _ => ([], none)
  | scene :: rest, i =>
    if env.fetchOk scene.imageUrl then
      let result := imageLoop env n rest (i + 1)
      (prepEvent n i :: result.1, result.2)
    else
      ([], some (imageFailMsg (i + 1)))

/-- The per-scene segment-encoding loop (lines 120-165). -/
def encodeLoop (env : FFmpegEnv) (n : Nat) : List VideoScene → Nat → List ProgressEvent × Option String
  | [], _ => ([], none)
  | _ :: rest, i =>
    if env.segmentOk i then
      let result := encodeLoop env n rest (i + 1)
      (encEvent n i :: result.1, result.2)
    else
      ([], some (encodeFailMsg (i + 1)))

/-- Whether the whole audio pass (lines 202-265) succeeds: every
`fetchFile(audioUrl)` and the merge `exec`(s); any failure is caught and
the run falls back to the silent video (lines 266-274). -/
def audioPassOk (env : FFmpegEnv) (audioScenes : List VideoScene) : Bool :=
  audioScenes.all (fun scene => env.fetchOk (scene.audioUrl.getD "")) && env.audioMergeOk

/-- One `generateVideo(scenes, options, onProgress)` run: the sequence of
progress events delivered to `onProgress`, and the settled result.
`alreadyLoaded` is the generator's `loaded` flag on entry; a `load`
failure is thrown before the main `try` and is therefore not wrapped,
while errors inside the `try` are rethrown as
`"Failed to generate video: " ++ message` (lines 312-317). -/
def generateVideoRun (env : FFmpegEnv) (alreadyLoaded : Bool) (scenes : List VideoScene) :
    List ProgressEvent × Except String VideoOutput :=
  if !alreadyLoaded && !env.loadOk then
    ([loadStartEvent], .error loadFailMsg)
  else
    let loadEvents := if alreadyLoaded then [] else [loadStartEvent, loadDoneEvent]
    let n := scenes.length
    let imageResult := imageLoop env n scenes 0
    match imageResult.2 with
    | some e => (loadEvents ++ prepStartEvent :: imageResult.1, .error ("Failed to generate video: " ++ e))
    | none =>
      let encodeResult := encodeLoop env n scenes 0
      match encodeResult.2 with
      | some e =>
        (loadEvents ++ prepStartEvent :: imageResult.1 ++ encStartEvent :: encodeResult.1,
         .error ("Failed to generate video: " ++ e))
      | none =>
        if !env.concatOk then
          (loadEvents ++ prepStartEvent :: imageResult.1 ++ encStartEvent :: encodeResult.1 ++ [combineEvent],
           .error ("Failed to generate video: " ++ concatFailMsg))
        else
          let audioScenes := scenes.filter (fun scene => scene.audioUrl.isSome)
          if audioScenes.length > 0 then
            let out := if audioPassOk env audioScenes then VideoOutput.muxed else VideoOutput.silent
            (loadEvents ++ prepStartEvent :: imageResult.1 ++ encStartEvent :: encodeResult.1 ++
              [combineEvent, audioEvent, finalizeEvent, completeEvent], .ok out)
          else
            (loadEvents ++ prepStartEvent :: imageResult.1 ++ encStartEvent :: encodeResult.1 ++
              [combineEvent, finalizeEvent, completeEvent], .ok VideoOutput.silent)

def dummyVideoScene : VideoScene := { imageUrl := "", duration := 0, audioUrl := none }

/-- Closed form of the events delivered by a fully successful
`generateVideo` run (after any load events): the preparing pass, the
encoding pass, concat, the optional audio-start event, finalizing and
completion. -/
def mainTraceOk (n audioCount : Nat) : List ProgressEvent :=
  prepStartEvent :: (List.range' 0 n).map (prepEvent n)
    ++ encStartEvent :: (List.range' 0 n).map (encEvent n)
    ++ [combineEvent]
    ++ (if 0 < audioCount then [audioEvent] else [])
    ++ [finalizeEvent, completeEvent]

instance : DecidableRel (fun a b : ProgressEvent => a.progress ≤ b.progress) :=
  fun a b => inferInstanceAs (Decidable (a.progress ≤ b.progress))

instance : DecidableRel (fun a b : ProgressEvent => stageIdx a.stage ≤ stageIdx b.stage) :=
  fun a b => inferInstanceAs (Decidable (stageIdx a.stage ≤ stageIdx b.stage))

/-! ## Theorems -/

/-- The scene numbers of a synthesized story are `1, 2, ..., sceneCount`
whenever `sceneCount ≥ 2`. -/
theorem scenes_map_number (prompt style ageGroup : String) (n : Nat) (hn : 2 ≤ n) :
    (generateTemplateStory prompt n style ageGroup).scenes.map Scene.number = List.range' 1 n := by
  have hshape : (generateTemplateStory prompt n style ageGroup).scenes.map Scene.number
      = 1 :: ((List.range (n - 2)).map (fun i => i + 2) ++ [n]) := by
    simp [generateTemplateStory, openingScene, middleScene, endingScene,
      List.map_append, List.map_map, Function.comp]
  rw [hshape]
  obtain ⟨m, rfl⟩ : ∃ m, n = m + 2 := ⟨n - 2, by omega⟩
  have hmap : (List.range (m + 2 - 2)).map (fun i => i + 2) = List.range' 2 m := by
    have he : (fun i : Nat => i + 2) = (fun i : Nat => 2 + i) := funext fun i => by omega
    simp only [Nat.add_sub_cancel, he, ← List.range'_eq_map_range]
  rw [hmap, show m + 2 = (m + 1) + 1 from rfl, List.range'_succ, List.range'_1_concat]
  norm_num
  omega

/-- C1: for every prompt, every scene count `n ∈ {3,5,8}` and every age
group, the synthesized story has exactly `n` scenes whose `number` fields
are `1..n` in order (first is 1, strictly increasing by 1, last is `n`). -/
theorem generateTemplateStory_scene_numbers (prompt style ageGroup : String) (n : Nat)
    (hn : n = 3 ∨ n = 5 ∨ n = 8) :
    (generateTemplateStory prompt n style ageGroup).scenes.length = n ∧
    (generateTemplateStory prompt n style ageGroup).scenes.map Scene.number = List.range' 1 n ∧
    ((generateTemplateStory prompt n style ageGroup).scenes.map Scene.number).head? = some 1 ∧
    ((generateTemplateStory prompt n style ageGroup).scenes.map Scene.number).getLast? = some n := by
  have h2 : 2 ≤ n := by rcases hn with rfl | rfl | rfl <;> omega
  have h := scenes_map_number prompt style ageGroup n h2
  refine ⟨?_, h, ?_, ?_⟩
  · have hlen := congrArg List.length h
    simpa using hlen
  · rw [h, List.head?_range']
    simp only [ite_eq_right_iff]
    omega
  · rw [h]
    obtain ⟨m, rfl⟩ : ∃ m, n = m + 1 := ⟨n - 1, by omega⟩
    rw [List.range'_1_concat, List.getLast?_concat]
    congr 1
    omega

/-- Witness for C1 at a concrete input. -/
theorem generateTemplateStory_scene_numbers_witness :
    (generateTemplateStory "two rabbits" 3 "cartoon" "preschool").scenes.length = 3 ∧
    (generateTemplateStory "two rabbits" 3 "cartoon" "preschool").scenes.map Scene.number = List.range' 1 3 ∧
    ((generateTemplateStory "two rabbits" 3 "cartoon" "preschool").scenes.map Scene.number).head? = some 1 ∧
    ((generateTemplateStory "two rabbits" 3 "cartoon" "preschool").scenes.map Scene.number).getLast? = some 3 :=
  generateTemplateStory_scene_numbers "two rabbits" "cartoon" "preschool" 3 (Or.inl rfl)

/-- C6: the synthesizer is total (it is a Lean function into `StoryDraft`),
and on the empty prompt with scene count 3 and age group "toddler" it
returns a well-formed draft whose only character is named "Hero". -/
theorem generateTemplateStory_empty_prompt_hero :
    (generateTemplateStory "" 3 "cartoon" "toddler").characters.map CharacterInfo.name = ["Hero"] ∧
    (generateTemplateStory "" 3 "cartoon" "toddler").scenes.map Scene.number = [1, 2, 3] := by
  constructor <;> rfl

/-- C3 counterexample: on the prompt "two cats and dogs" the second
extracted name is "Dgs" — the source applies `slice(1)` twice to the
second captured word — not the "first letter uppercase, remainder
lowercase" normalization "Dogs" the claim asserts. -/
theorem two_pattern_second_name_counterexample :
    (generateTemplateStory "two cats and dogs" 3 "cartoon" "preschool").characters.map CharacterInfo.name
      = ["Cats", "Dgs"] ∧
    capFull "dogs" = "Dogs" ∧ ("Dgs" : String) ≠ "Dogs" :=
  ⟨rfl, rfl, by decide⟩

/-- The names of the characters of a synthesized story are exactly the
extracted character names. -/
theorem characters_map_name (prompt style ageGroup : String) (n : Nat) :
    (generateTemplateStory prompt n style ageGroup).characters.map CharacterInfo.name
      = extractCharacters prompt := by
  show List.map CharacterInfo.name (List.map _ (extractCharacters prompt)) = _
  rw [List.map_map]
  show List.map (fun name => name) _ = _
  simp

/-- C3 amended: when the "two &lt;word&gt; (and &lt;word&gt;)?" pattern matches,
the character list is `[capFull w1, capDropSecond w2]` for two captured
words (the second name loses the second character of its word and the two
names need not be distinct), and `[capFull w1 ++ " One", capFull w1 ++ " Two"]`
for one captured word; in particular "two rabbits" yields
`["Rabbits One", "Rabbits Two"]` (the captured word is plural). -/
theorem two_pattern_names_amended :
    (∀ (prompt style ageGroup : String) (n : Nat) (w1 : String) (ow2 : Option String),
      twoMatch prompt = some (w1, ow2) →
      (generateTemplateStory prompt n style ageGroup).characters.map CharacterInfo.name =
        (match ow2 with
         | some w2 => [capFull w1, capDropSecond w2]
         | none => [capFull w1 ++ " One", capFull w1 ++ " Two"])) ∧
    (generateTemplateStory "two rabbits" 3 "cartoon" "preschool").characters.map CharacterInfo.name
      = ["Rabbits One", "Rabbits Two"] := by
  constructor
  · intro prompt style ageGroup n w1 ow2 h
    rw [characters_map_name]
    unfold extractCharacters
    rw [show twoMatch prompt = firstMatch matchTwoAt prompt.data from rfl] at h ⊢
    rw [h]
  · rfl

/-- Witness for the amended C3 at a concrete input. -/
theorem two_pattern_names_amended_witness :
    (generateTemplateStory "two cats and dogs" 5 "cartoon" "elementary").characters.map CharacterInfo.name
      = [capFull "cats", capDropSecond "dogs"] :=
  two_pattern_names_amended.1 "two cats and dogs" "cartoon" "elementary" 5 "cats" (some "dogs") (by decide)

set_option maxRecDepth 8000 in
/-- C5 counterexample: for a 61-character prompt the title is exactly the
first 60 characters (trimmed) with no ellipsis appended, contradicting the
claim that an ellipsis is appended when truncation occurs. -/
theorem story_title_no_ellipsis_counterexample :
    (generateTemplateStory (String.mk (List.replicate 61 'a')) 3 "cartoon" "preschool").title
      = String.mk (List.replicate 60 'a') ∧
    ¬ ∃ ell : String, ell ≠ "" ∧
      (generateTemplateStory (String.mk (List.replicate 61 'a')) 3 "cartoon" "preschool").title
        = jsSubstring (String.mk (List.replicate 61 'a')) 60 ++ ell := by
  have h1 : (generateTemplateStory (String.mk (List.replicate 61 'a')) 3 "cartoon" "preschool").title
      = String.mk (List.replicate 60 'a') := by decide
  refine ⟨h1, ?_⟩
  rintro ⟨ell, hne, heq⟩
  rw [h1] at heq
  have hj : jsSubstring (String.mk (List.replicate 61 'a')) 60 = String.mk (List.replicate 60 'a') := by
    decide
  rw [hj] at heq
  have hdata := congrArg String.data heq
  rw [String.data_append] at hdata
  have hnil : ell.data = [] :=
    List.self_eq_append_right.mp hdata
  apply hne
  cases ell with
  | mk d => exact congrArg String.mk hnil

/-- C5 amended: the title is `prompt.substring(0, 60).trim()`, with no
ellipsis appended; when that string is empty the title is
"The Adventure of &lt;character list&gt;"; otherwise the title has at most
60 characters. -/
theorem story_title_amended (prompt style ageGroup : String) (n : Nat) :
    (generateTemplateStory prompt n style ageGroup).title =
      (if jsTrim (jsSubstring prompt 60) == "" then
        "The Adventure of " ++ charListOf (extractCharacters prompt)
       else jsTrim (jsSubstring prompt 60)) ∧
    (jsTrim (jsSubstring prompt 60) ≠ "" →
      (generateTemplateStory prompt n style ageGroup).title.length ≤ 60) := by
  constructor
  · rfl
  · intro hne
    have ht : (generateTemplateStory prompt n style ageGroup).title = jsTrim (jsSubstring prompt 60) := by
      show (if jsTrim (jsSubstring prompt 60) == "" then
        "The Adventure of " ++ charListOf (extractCharacters prompt)
       else jsTrim (jsSubstring prompt 60)) = _
      rw [if_neg]
      simpa using hne
    rw [ht]
    show (((((prompt.data.take 60).dropWhile Char.isWhitespace).reverse.dropWhile Char.isWhitespace).reverse).length) ≤ 60
    rw [List.length_reverse]
    calc ((((prompt.data.take 60).dropWhile Char.isWhitespace).reverse.dropWhile Char.isWhitespace)).length
        ≤ (((prompt.data.take 60).dropWhile Char.isWhitespace).reverse).length :=
          (List.dropWhile_sublist _).length_le
      _ = (((prompt.data.take 60).dropWhile Char.isWhitespace)).length := List.length_reverse _
      _ ≤ ((prompt.data.take 60)).length := (List.dropWhile_sublist _).length_le
      _ ≤ 60 := List.length_take_le _ _

/-- Witness for the amended C5 at a concrete input. -/
theorem story_title_amended_witness :
    (generateTemplateStory "hello" 3 "cartoon" "preschool").title = "hello" ∧
    (generateTemplateStory "hello" 3 "cartoon" "preschool").title.length ≤ 60 := by
  have h := story_title_amended "hello" "cartoon" "preschool" 3
  exact ⟨h.1.trans (by decide), h.2 (by decide)⟩

/-- Character extraction always yields at least one name. -/
theorem extractCharacters_ne_nil (prompt : String) : extractCharacters prompt ≠ [] := by
  unfold extractCharacters
  cases h : twoMatch prompt with
  | some pr =>
    obtain ⟨w1, ow2⟩ := pr
    cases ow2 <;> simp
  | none =>
    simp only []
    by_cases hc : ((patternMatches prompt).foldl (fun acc om =>
      match om with
      | some w =>
        if w.length > 2 then
          let name := capFull w
          if acc.contains name then acc else acc ++ [name]
        else acc
      | none => acc) []).isEmpty
    · rw [if_pos hc]
      cases hw : (jsSplitWs prompt).filter (fun w => w.length > 4) <;> simp
    · rw [if_neg hc]
      intro hnil
      rw [hnil] at hc
      exact hc rfl

/-- The scenes of a synthesized story, in closed form. -/
theorem generateTemplateStory_scenes (prompt style ageGroup : String) (n : Nat) :
    (generateTemplateStory prompt n style ageGroup).scenes =
      openingScene (themesOf prompt) (extractCharacters prompt) (charListOf (extractCharacters prompt))
          (verbSuffix (extractCharacters prompt)) (templateFor ageGroup prompt (charListOf (extractCharacters prompt))) ::
        ((List.range (n - 2)).map (middleScene
            (sceneVariations (themesOf prompt) (charListOf (extractCharacters prompt)) (verbSuffix (extractCharacters prompt)))
            (extractCharacters prompt) (templateFor ageGroup prompt (charListOf (extractCharacters prompt)))) ++
          [endingScene (extractCharacters prompt) (charListOf (extractCharacters prompt))
            (verbSuffix (extractCharacters prompt)) (templateFor ageGroup prompt (charListOf (extractCharacters prompt))) n]) :=
  rfl

/-- C9: every dialogue line of every scene names a speaker drawn from the
story's character list; the opening scene's speakers are exactly the
characters in order, middle scene `i` (0-based) has the single speaker
`characters[i mod characterCount]`, and the final scene's single speaker
is the first character. -/
theorem dialogue_speakers_in_characters (prompt style ageGroup : String) (n i : Nat)
    (hi : i < n - 2) :
    (∀ scene ∈ (generateTemplateStory prompt n style ageGroup).scenes,
      ∀ d ∈ scene.dialogue,
        d.character ∈ (generateTemplateStory prompt n style ageGroup).characters.map CharacterInfo.name) ∧
    ((generateTemplateStory prompt n style ageGroup).scenes.head?.map
        (fun s => s.dialogue.map DialogueLine.character)) = some (extractCharacters prompt) ∧
    ((generateTemplateStory prompt n style ageGroup).scenes.getD (i + 1) dummyScene).dialogue.map
        DialogueLine.character
      = [(extractCharacters prompt).getD (i % (extractCharacters prompt).length) ""] ∧
    ((generateTemplateStory prompt n style ageGroup).scenes.getLast?.map
        (fun s => s.dialogue.map DialogueLine.character)) = some [(extractCharacters prompt).headD ""] := by
  have hne := extractCharacters_ne_nil prompt
  have hlen : 0 < (extractCharacters prompt).length := List.length_pos.mpr hne
  have hmem_getD : ∀ k, (extractCharacters prompt).getD (k % (extractCharacters prompt).length) ""
      ∈ extractCharacters prompt := by
    intro k
    have hk : k % (extractCharacters prompt).length < (extractCharacters prompt).length :=
      Nat.mod_lt _ hlen
    rw [List.getD_eq_getElem _ _ hk]
    exact List.getElem_mem _
  have hhead : (extractCharacters prompt).headD "" ∈ extractCharacters prompt := by
    cases hx : extractCharacters prompt with
    | nil => exact absurd hx hne
    | cons a l => simp [List.headD]
  refine ⟨?_, ?_, ?_, ?_⟩
  · intro scene hs d hd
    rw [characters_map_name]
    rw [generateTemplateStory_scenes] at hs
    rcases List.mem_cons.mp hs with rfl | hs'
    · simp only [openingScene, List.mem_map] at hd
      obtain ⟨c, hc, rfl⟩ := hd
      exact hc
    · rcases List.mem_append.mp hs' with hmid | hend
      · obtain ⟨j, _, rfl⟩ := List.mem_map.mp hmid
        simp only [middleScene, List.mem_singleton] at hd
        subst hd
        exact hmem_getD j
      · rw [List.mem_singleton] at hend
        subst hend
        simp only [endingScene, List.mem_singleton] at hd
        subst hd
        exact hhead
  · rw [generateTemplateStory_scenes]
    simp only [openingScene, List.head?_cons, Option.map_some', List.map_map]
    show some (List.map (fun c => c) (extractCharacters prompt)) = _
    simp
  · rw [generateTemplateStory_scenes]
    rw [List.getD_cons_succ]
    have hi' : i < ((List.range (n - 2)).map (middleScene
        (sceneVariations (themesOf prompt) (charListOf (extractCharacters prompt)) (verbSuffix (extractCharacters prompt)))
        (extractCharacters prompt) (templateFor ageGroup prompt (charListOf (extractCharacters prompt))))).length := by
      simpa using hi
    rw [List.getD_append _ _ _ _ hi', List.getD_eq_getElem _ _ hi']
    simp [middleScene]
  · rw [generateTemplateStory_scenes]
    rw [show (openingScene (themesOf prompt) (extractCharacters prompt) (charListOf (extractCharacters prompt))
          (verbSuffix (extractCharacters prompt)) (templateFor ageGroup prompt (charListOf (extractCharacters prompt))) ::
        ((List.range (n - 2)).map (middleScene
            (sceneVariations (themesOf prompt) (charListOf (extractCharacters prompt)) (verbSuffix (extractCharacters prompt)))
            (extractCharacters prompt) (templateFor ageGroup prompt (charListOf (extractCharacters prompt)))) ++
          [endingScene (extractCharacters prompt) (charListOf (extractCharacters prompt))
            (verbSuffix (extractCharacters prompt)) (templateFor ageGroup prompt (charListOf (extractCharacters prompt))) n]))
      = (openingScene (themesOf prompt) (extractCharacters prompt) (charListOf (extractCharacters prompt))
          (verbSuffix (extractCharacters prompt)) (templateFor ageGroup prompt (charListOf (extractCharacters prompt))) ::
        (List.range (n - 2)).map (middleScene
            (sceneVariations (themesOf prompt) (charListOf (extractCharacters prompt)) (verbSuffix (extractCharacters prompt)))
            (extractCharacters prompt) (templateFor ageGroup prompt (charListOf (extractCharacters prompt))))) ++
          [endingScene (extractCharacters prompt) (charListOf (extractCharacters prompt))
            (verbSuffix (extractCharacters prompt)) (templateFor ageGroup prompt (charListOf (extractCharacters prompt))) n]
      from by simp]
    rw [List.getLast?_concat]
    simp [endingScene]

/-- Witness for C9 at a concrete input. -/
theorem dialogue_speakers_in_characters_witness :
    (∀ scene ∈ (generateTemplateStory "two rabbits" 5 "cartoon" "preschool").scenes,
      ∀ d ∈ scene.dialogue,
        d.character ∈ (generateTemplateStory "two rabbits" 5 "cartoon" "preschool").characters.map CharacterInfo.name) ∧
    ((generateTemplateStory "two rabbits" 5 "cartoon" "preschool").scenes.head?.map
        (fun s => s.dialogue.map DialogueLine.character)) = some (extractCharacters "two rabbits") ∧
    ((generateTemplateStory "two rabbits" 5 "cartoon" "preschool").scenes.getD (1 + 1) dummyScene).dialogue.map
        DialogueLine.character
      = [(extractCharacters "two rabbits").getD (1 % (extractCharacters "two rabbits").length) ""] ∧
    ((generateTemplateStory "two rabbits" 5 "cartoon" "preschool").scenes.getLast?.map
        (fun s => s.dialogue.map DialogueLine.character)) = some [(extractCharacters "two rabbits").headD ""] :=
  dialogue_speakers_in_characters "two rabbits" "cartoon" "preschool" 5 1 (by omega)

/-- C4 counterexample: at sceneCount 8, middle scenes repeat the clamped
Discovery variation, so the settings of scenes 2..7 do not cycle through
the fixed 4-entry variation list under any starting offset. -/
theorem middle_scene_cycle_counterexample :
    ¬ ∃ k : Fin 4, ∀ i : Fin 6,
      ((generateTemplateStory "x" 8 "cartoon" "preschool").scenes.getD (i.val + 1) dummyScene).setting
        = (((sceneVariations (themesOf "x") (charListOf (extractCharacters "x"))
              (verbSuffix (extractCharacters "x"))).take 4).getD ((k.val + i.val) % 4) dummyVariation).setting := by
  decide

/-- C4 amended: middle scene `i` (0-based, scene number `i+2`) takes its
setting and action from `sceneVariations[min(i+1, 3)]` — stepping from the
second variation and clamping at the fourth (Discovery), not cycling; its
title steps through the fixed title list then repeats "Adventure"; the
first middle scene's narration is the template's middle sentence while
later ones use the variation's action sentence; and the single dialogue
line is spoken by `characters[i mod characterCount]` with text
`exclamations[i mod 4]`. -/
theorem middle_scene_fields_amended (prompt style ageGroup : String) (n i : Nat) (hi : i < n - 2) :
    ((generateTemplateStory prompt n style ageGroup).scenes.getD (i + 1) dummyScene)
      = { number := i + 2
        , title := "Scene " ++ toString (i + 2) ++ ": " ++ middleTitles.getD i "Adventure"
        , setting := ((sceneVariations (themesOf prompt) (charListOf (extractCharacters prompt))
            (verbSuffix (extractCharacters prompt))).getD (min (i + 1) 3) dummyVariation).setting
        , narration := if i = 0 then (templateFor ageGroup prompt (charListOf (extractCharacters prompt))).middle
            else ((sceneVariations (themesOf prompt) (charListOf (extractCharacters prompt))
              (verbSuffix (extractCharacters prompt))).getD (min (i + 1) 3) dummyVariation).action
        , dialogue := [ { character := (extractCharacters prompt).getD (i % (extractCharacters prompt).length) ""
                        , text := middleExclamations.getD (i % 4) "" } ]
        , actions := [((sceneVariations (themesOf prompt) (charListOf (extractCharacters prompt))
            (verbSuffix (extractCharacters prompt))).getD (min (i + 1) 3) dummyVariation).action] } := by
  rw [generateTemplateStory_scenes, List.getD_cons_succ]
  have hi' : i < ((List.range (n - 2)).map (middleScene
      (sceneVariations (themesOf prompt) (charListOf (extractCharacters prompt)) (verbSuffix (extractCharacters prompt)))
      (extractCharacters prompt) (templateFor ageGroup prompt (charListOf (extractCharacters prompt))))).length := by
    simpa using hi
  rw [List.getD_append _ _ _ _ hi', List.getD_eq_getElem _ _ hi']
  have hl : (sceneVariations (themesOf prompt) (charListOf (extractCharacters prompt))
      (verbSuffix (extractCharacters prompt))).length = 5 := rfl
  simp [middleScene, hl, beq_iff_eq]

/-- Witness for the amended C4 at a concrete input (a clamped index). -/
theorem middle_scene_fields_amended_witness :
    ((generateTemplateStory "two rabbits" 8 "cartoon" "preschool").scenes.getD (4 + 1) dummyScene)
      = { number := 4 + 2
        , title := "Scene " ++ toString (4 + 2) ++ ": " ++ middleTitles.getD 4 "Adventure"
        , setting := ((sceneVariations (themesOf "two rabbits") (charListOf (extractCharacters "two rabbits"))
            (verbSuffix (extractCharacters "two rabbits"))).getD (min (4 + 1) 3) dummyVariation).setting
        , narration := if 4 = 0 then (templateFor "preschool" "two rabbits" (charListOf (extractCharacters "two rabbits"))).middle
            else ((sceneVariations (themesOf "two rabbits") (charListOf (extractCharacters "two rabbits"))
              (verbSuffix (extractCharacters "two rabbits"))).getD (min (4 + 1) 3) dummyVariation).action
        , dialogue := [ { character := (extractCharacters "two rabbits").getD (4 % (extractCharacters "two rabbits").length) ""
                        , text := middleExclamations.getD (4 % 4) "" } ]
        , actions := [((sceneVariations (themesOf "two rabbits") (charListOf (extractCharacters "two rabbits"))
            (verbSuffix (extractCharacters "two rabbits"))).getD (min (4 + 1) 3) dummyVariation).action] } :=
  middle_scene_fields_amended "two rabbits" "cartoon" "preschool" 8 4 (by omega)

/-- C10: `parseStoryJSON` is total by construction (it is a Lean function
into `J ⊕ ParseFallback`); whenever the whole response is not parseable
JSON and the extracted fenced block (if any) is not parseable either, it
returns the fixed fallback object with title "Generated Story", empty
character and scene lists, and an error field, rather than propagating
the parse failure. -/
theorem parseStoryJSON_fallback {J : Type} (jsonParse : String → Option J) (response : String)
    (hfence : ∀ m, extractFencedJson response = some m → jsonParse m = none)
    (hwhole : extractFencedJson response = none → jsonParse response = none) :
    parseStoryJSON jsonParse response = Sum.inr
      { title := "Generated Story", characters := [], scenes := [], error := "Failed to parse AI response" } := by
  unfold parseStoryJSON
  cases h : extractFencedJson response with
  | some m =>
    show (match jsonParse m with
      | some j => (Sum.inl j : J ⊕ ParseFallback)
      | none => Sum.inr parseFallbackStory) = _
    rw [hfence m h]
    rfl
  | none =>
    show (match jsonParse response with
      | some j => (Sum.inl j : J ⊕ ParseFallback)
      | none => Sum.inr parseFallbackStory) = _
    rw [hwhole h]
    rfl

/-- Witness for C10: a response that is neither JSON nor fenced. -/
theorem parseStoryJSON_fallback_witness :
    parseStoryJSON (J := Unit) (fun _ => none) "hello there" = Sum.inr
      { title := "Generated Story", characters := [], scenes := [], error := "Failed to parse AI response" } :=
  parseStoryJSON_fallback (fun _ => none) "hello there" (fun _ _ => rfl) (fun _ => rfl)

/-- When every image fetch succeeds, the download loop delivers one
preparing event per scene and no error. -/
theorem imageLoop_ok (env : FFmpegEnv) (n : Nat) :
    ∀ (l : List VideoScene) (k : Nat), (∀ sc ∈ l, env.fetchOk sc.imageUrl = true) →
      imageLoop env n l k = ((List.range' k l.length).map (prepEvent n), none) := by
  intro l
  induction l with
  | nil => intro k _; rfl
  | cons scene rest ih =>
    intro k h
    have h0 : env.fetchOk scene.imageUrl = true := h scene (by simp)
    have htail := ih (k + 1) (fun sc hsc => h sc (by simp [hsc]))
    simp only [imageLoop, h0, if_true, htail, List.length_cons, List.range'_succ, List.map_cons]

/-- When every segment encode succeeds, the encode loop delivers one
encoding event per scene and no error. -/
theorem encodeLoop_ok (env : FFmpegEnv) (n : Nat) :
    ∀ (l : List VideoScene) (k : Nat), (∀ i, k ≤ i → i < k + l.length → env.segmentOk i = true) →
      encodeLoop env n l k = ((List.range' k l.length).map (encEvent n), none) := by
  intro l
  induction l with
  | nil => intro k _; rfl
  | cons scene rest ih =>
    intro k h
    have h0 : env.segmentOk k = true := h k le_rfl (by simp)
    have htail := ih (k + 1) (fun i h1 h2 => h i (by omega) (by simp at h2 ⊢; omega))
    simp only [encodeLoop, h0, if_true, htail, List.length_cons, List.range'_succ, List.map_cons]

/-- If the image fetch for the scene at (0-based) position `i` fails and
every earlier fetch succeeds, the download loop errors with the message
naming 1-based scene `k + i + 1`. -/
theorem imageLoop_fail (env : FFmpegEnv) (n : Nat) :
    ∀ (l : List VideoScene) (k i : Nat), i < l.length →
      env.fetchOk ((l.getD i dummyVideoScene).imageUrl) = false →
      (∀ j, j < i → env.fetchOk ((l.getD j dummyVideoScene).imageUrl) = true) →
      (imageLoop env n l k).2 = some (imageFailMsg (k + i + 1)) := by
  intro l
  induction l with
  | nil => intro k i hi; simp at hi
  | cons scene rest ih =>
    intro k i hi hfail hok
    cases i with
    | zero =>
      rw [List.getD_cons_zero] at hfail
      simp only [imageLoop, hfail]
      rfl
    | succ i' =>
      have h0 : env.fetchOk scene.imageUrl = true := by
        have := hok 0 (Nat.succ_pos _)
        rwa [List.getD_cons_zero] at this
      have htail := ih (k + 1) i' (by simpa using hi)
        (by rwa [List.getD_cons_succ] at hfail)
        (fun j hj => by
          have := hok (j + 1) (by omega)
          rwa [List.getD_cons_succ] at this)
      simp only [imageLoop, h0, if_true]
      rw [htail]
      congr 2
      omega

/-- A fully successful run (all fetches, all segment encodes, and concat
succeed, and the engine loads if needed) delivers the closed-form trace
and settles with `ok`; the output is the muxed video exactly when the
audio pass succeeds on a nonempty audio-scene list. -/
theorem generateVideoRun_ok (env : FFmpegEnv) (alreadyLoaded : Bool) (scenes : List VideoScene)
    (hload : alreadyLoaded = true ∨ env.loadOk = true)
    (himg : ∀ sc ∈ scenes, env.fetchOk sc.imageUrl = true)
    (henc : ∀ i, i < scenes.length → env.segmentOk i = true)
    (hcat : env.concatOk = true) :
    generateVideoRun env alreadyLoaded scenes =
      ((if alreadyLoaded then [] else [loadStartEvent, loadDoneEvent])
          ++ mainTraceOk scenes.length (scenes.filter (fun sc => sc.audioUrl.isSome)).length,
        .ok (if 0 < (scenes.filter (fun sc => sc.audioUrl.isSome)).length then
              (if audioPassOk env (scenes.filter (fun sc => sc.audioUrl.isSome)) then .muxed else .silent)
             else .silent)) := by
  have hL : (!alreadyLoaded && !env.loadOk) = false := by
    rcases hload with h | h <;> simp [h]
  have hio := imageLoop_ok env scenes.length scenes 0 himg
  have heo := encodeLoop_ok env scenes.length scenes 0 (fun i h1 h2 => henc i (by omega))
  unfold generateVideoRun
  rw [hL]
  simp only [Bool.false_eq_true, if_false, hio, heo, hcat, Bool.not_true, Bool.false_eq_true, if_false]
  by_cases ha : 0 < (scenes.filter (fun sc => sc.audioUrl.isSome)).length
  · simp [mainTraceOk, ha]
  · simp [mainTraceOk, ha]

/-- C7: if the image fetch for the scene at 0-based index `i` fails (and
the preceding fetches succeed, so it is this fetch that fails during the
preparing stage), the whole run rejects with an error message naming the
1-based scene number `i + 1`, and no video bytes are returned. -/
theorem generateVideo_image_fetch_failure (env : FFmpegEnv) (alreadyLoaded : Bool)
    (scenes : List VideoScene) (i : Nat)
    (hload : alreadyLoaded = true ∨ env.loadOk = true)
    (hi : i < scenes.length)
    (hfail : env.fetchOk ((scenes.getD i dummyVideoScene).imageUrl) = false)
    (hok : ∀ j, j < i → env.fetchOk ((scenes.getD j dummyVideoScene).imageUrl) = true) :
    (generateVideoRun env alreadyLoaded scenes).2 =
      .error ("Failed to generate video: " ++ imageFailMsg (i + 1)) ∧
    ∀ b, (generateVideoRun env alreadyLoaded scenes).2 ≠ .ok b := by
  have hL : (!alreadyLoaded && !env.loadOk) = false := by
    rcases hload with h | h <;> simp [h]
  have hil := imageLoop_fail env scenes.length scenes 0 i hi hfail hok
  have heq : (generateVideoRun env alreadyLoaded scenes).2 =
      .error ("Failed to generate video: " ++ imageFailMsg (i + 1)) := by
    unfold generateVideoRun
    rw [hL]
    simp only [Bool.false_eq_true, if_false]
    rcases hr : imageLoop env scenes.length scenes 0 with ⟨evs, r2⟩
    rw [hr] at hil
    simp only at hil
    subst hil
    show Except.error ("Failed to generate video: " ++ imageFailMsg (0 + i + 1)) =
      Except.error ("Failed to generate video: " ++ imageFailMsg (i + 1))
    rw [Nat.zero_add]
  exact ⟨heq, fun b hb => by rw [heq] at hb; cases hb⟩

/-- Witness for C7 at a concrete input: the second scene's image is not
fetchable, the run rejects naming scene 2. -/
theorem generateVideo_image_fetch_failure_witness :
    (generateVideoRun
        { fetchOk := fun u => u != "bad", segmentOk := fun _ => true,
          concatOk := true, audioMergeOk := true, loadOk := true }
        true
        [ { imageUrl := "img0", duration := 2, audioUrl := none }
        , { imageUrl := "bad", duration := 3, audioUrl := none } ]).2 =
      .error ("Failed to generate video: " ++ imageFailMsg (1 + 1)) ∧
    ∀ b, (generateVideoRun
        { fetchOk := fun u => u != "bad", segmentOk := fun _ => true,
          concatOk := true, audioMergeOk := true, loadOk := true }
        true
        [ { imageUrl := "img0", duration := 2, audioUrl := none }
        , { imageUrl := "bad", duration := 3, audioUrl := none } ]).2 ≠ .ok b :=
  generateVideo_image_fetch_failure
    { fetchOk := fun u => u != "bad", segmentOk := fun _ => true,
      concatOk := true, audioMergeOk := true, loadOk := true }
    true
    [ { imageUrl := "img0", duration := 2, audioUrl := none }
    , { imageUrl := "bad", duration := 3, audioUrl := none } ]
    1 (Or.inl rfl) (by decide) (by decide)
    (fun j hj => by
      have : j = 0 := by omega
      subst this
      decide)

/-- C8: when at least one scene carries an audio URL and the audio pass
fails (an audio fetch or the merge), the run does not abort: it settles
with `ok` and the returned bytes are the silent concatenated video. -/
theorem generateVideo_audio_fallback (env : FFmpegEnv) (alreadyLoaded : Bool)
    (scenes : List VideoScene)
    (hload : alreadyLoaded = true ∨ env.loadOk = true)
    (himg : ∀ sc ∈ scenes, env.fetchOk sc.imageUrl = true)
    (henc : ∀ i, i < scenes.length → env.segmentOk i = true)
    (hcat : env.concatOk = true)
    (haud : 0 < (scenes.filter (fun sc => sc.audioUrl.isSome)).length)
    (hpass : audioPassOk env (scenes.filter (fun sc => sc.audioUrl.isSome)) = false) :
    (generateVideoRun env alreadyLoaded scenes).2 = .ok VideoOutput.silent := by
  rw [generateVideoRun_ok env alreadyLoaded scenes hload himg henc hcat]
  simp [haud, hpass]

/-- Witness for C8 at a concrete input: the only audio resource is not
fetchable, yet the run returns the silent video. -/
theorem generateVideo_audio_fallback_witness :
    (generateVideoRun
        { fetchOk := fun u => u != "badaudio", segmentOk := fun _ => true,
          concatOk := true, audioMergeOk := true, loadOk := true }
        true
        [ { imageUrl := "img0", duration := 2, audioUrl := some "badaudio" } ]).2 =
      .ok VideoOutput.silent :=
  generateVideo_audio_fallback
    { fetchOk := fun u => u != "badaudio", segmentOk := fun _ => true,
      concatOk := true, audioMergeOk := true, loadOk := true }
    true
    [ { imageUrl := "img0", duration := 2, audioUrl := some "badaudio" } ]
    (Or.inl rfl)
    (by decide)
    (fun i hi => rfl)
    rfl (by decide) (by decide)

/-- Gluing `Chain'` across an append from all cross pairs. -/
theorem chain'_glue {α : Type} {R : α → α → Prop} {l1 l2 : List α}
    (h1 : List.Chain' R l1) (h2 : List.Chain' R l2)
    (h : ∀ x ∈ l1, ∀ y ∈ l2, R x y) : List.Chain' R (l1 ++ l2) :=
  List.chain'_append.mpr ⟨h1, h2, fun x hx y hy =>
    h x (List.mem_of_getLast?_eq_some hx) y (List.mem_of_mem_head? hy)⟩

/-- `Chain'` on a mapped arithmetic range from the one-step property. -/
theorem chain'_map_range' {α : Type} (R : α → α → Prop) (f : Nat → α)
    (h : ∀ j, R (f j) (f (j + 1))) : ∀ (k s : Nat), List.Chain' R ((List.range' s k).map f) := by
  intro k
  induction k with
  | zero => intro s; simp
  | succ k ih =>
    intro s
    rw [List.range'_succ, List.map_cons, List.chain'_cons']
    refine ⟨?_, ih (s + 1)⟩
    intro y hy
    cases k with
    | zero => simp at hy
    | succ k' =>
      rw [List.range'_succ, List.map_cons, List.head?_cons] at hy
      have hy' : f (s + 1) = y := by simpa using hy
      subst hy'
      exact h s

theorem prepEvent_stage (n j : Nat) : (prepEvent n j).stage = Stage.preparing := rfl

theorem encEvent_stage (n j : Nat) : (encEvent n j).stage = Stage.encoding := rfl

theorem prepEvent_progress_lb (n j : Nat) : 10 ≤ (prepEvent n j).progress := by
  show (10 : ℚ) ≤ 10 + ((j : ℚ) / (n : ℚ)) * 30
  have h : (0 : ℚ) ≤ ((j : ℚ) / (n : ℚ)) * 30 := by positivity
  linarith

theorem prepEvent_progress_ub (n j : Nat) (hj : j < n) : (prepEvent n j).progress ≤ 40 := by
  show (10 : ℚ) + ((j : ℚ) / (n : ℚ)) * 30 ≤ 40
  have hn : (0 : ℚ) < (n : ℚ) := by
    exact_mod_cast Nat.lt_of_le_of_lt (Nat.zero_le _) hj
  have h1 : (j : ℚ) / (n : ℚ) ≤ 1 := by
    rw [div_le_one hn]
    exact_mod_cast Nat.le_of_lt hj
  nlinarith

theorem prepEvent_step (n j : Nat) : (prepEvent n j).progress ≤ (prepEvent n (j + 1)).progress := by
  show (10 : ℚ) + ((j : ℚ) / (n : ℚ)) * 30 ≤ 10 + (((j + 1 : Nat) : ℚ) / (n : ℚ)) * 30
  have hd : ((j : ℚ) / (n : ℚ)) ≤ (((j + 1 : Nat) : ℚ) / (n : ℚ)) := by
    rcases Nat.eq_zero_or_pos n with h0 | hpos
    · subst h0; simp
    · have hn : (0 : ℚ) < (n : ℚ) := by exact_mod_cast hpos
      rw [div_le_div_right hn]
      push_cast
      linarith
  have := mul_le_mul_of_nonneg_right hd (by norm_num : (0 : ℚ) ≤ 30)
  linarith

theorem encEvent_progress_lb (n j : Nat) : 50 ≤ (encEvent n j).progress := by
  show (50 : ℚ) ≤ 50 + ((j : ℚ) / (n : ℚ)) * 20
  have h : (0 : ℚ) ≤ ((j : ℚ) / (n : ℚ)) * 20 := by positivity
  linarith

theorem encEvent_progress_ub (n j : Nat) (hj : j < n) : (encEvent n j).progress ≤ 70 := by
  show (50 : ℚ) + ((j : ℚ) / (n : ℚ)) * 20 ≤ 70
  have hn : (0 : ℚ) < (n : ℚ) := by
    exact_mod_cast Nat.lt_of_le_of_lt (Nat.zero_le _) hj
  have h1 : (j : ℚ) / (n : ℚ) ≤ 1 := by
    rw [div_le_one hn]
    exact_mod_cast Nat.le_of_lt hj
  nlinarith

theorem encEvent_step (n j : Nat) : (encEvent n j).progress ≤ (encEvent n (j + 1)).progress := by
  show (50 : ℚ) + ((j : ℚ) / (n : ℚ)) * 20 ≤ 50 + (((j + 1 : Nat) : ℚ) / (n : ℚ)) * 20
  have hd : ((j : ℚ) / (n : ℚ)) ≤ (((j + 1 : Nat) : ℚ) / (n : ℚ)) := by
    rcases Nat.eq_zero_or_pos n with h0 | hpos
    · subst h0; simp
    · have hn : (0 : ℚ) < (n : ℚ) := by exact_mod_cast hpos
      rw [div_le_div_right hn]
      push_cast
      linarith
  have := mul_le_mul_of_nonneg_right hd (by norm_num : (0 : ℚ) ≤ 20)
  linarith

/-- The success trace (after any load events) is monotone in both the
stage order and the progress value, step by step. -/
theorem mainTraceOk_chain (n a : Nat) :
    List.Chain' (fun e1 e2 => stageIdx e1.stage ≤ stageIdx e2.stage ∧ e1.progress ≤ e2.progress)
      (mainTraceOk n a) := by
  have hform : mainTraceOk n a =
      [prepStartEvent] ++ ((List.range' 0 n).map (prepEvent n) ++ ([encStartEvent] ++
        ((List.range' 0 n).map (encEvent n) ++ ([combineEvent] ++
          ((if 0 < a then [audioEvent] else []) ++ [finalizeEvent, completeEvent]))))) := by
    simp [mainTraceOk]
  rw [hform]
  have hPmem : ∀ e ∈ (List.range' 0 n).map (prepEvent n),
      stageIdx e.stage = 1 ∧ 10 ≤ e.progress ∧ e.progress ≤ 40 := by
    intro e he
    obtain ⟨j, hj, rfl⟩ := List.mem_map.mp he
    have hjn : j < n := by
      rw [List.mem_range'] at hj
      obtain ⟨i, hi, rfl⟩ := hj
      omega
    exact ⟨rfl, prepEvent_progress_lb n j, prepEvent_progress_ub n j hjn⟩
  have hEmem : ∀ e ∈ (List.range' 0 n).map (encEvent n),
      stageIdx e.stage = 2 ∧ 50 ≤ e.progress ∧ e.progress ≤ 70 := by
    intro e he
    obtain ⟨j, hj, rfl⟩ := List.mem_map.mp he
    have hjn : j < n := by
      rw [List.mem_range'] at hj
      obtain ⟨i, hi, rfl⟩ := hj
      omega
    exact ⟨rfl, encEvent_progress_lb n j, encEvent_progress_ub n j hjn⟩
  have hAfterCombine : ∀ e ∈ (if 0 < a then [audioEvent] else []) ++ [finalizeEvent, completeEvent],
      2 ≤ stageIdx e.stage ∧ 75 ≤ e.progress := by
    intro e he
    by_cases ha : 0 < a
    · simp only [ha, if_true, List.mem_append, List.mem_cons, List.mem_singleton,
        List.not_mem_nil, or_false] at he
      rcases he with rfl | rfl | rfl <;>
        refine ⟨by norm_num [stageIdx, audioEvent, finalizeEvent, completeEvent], by
          norm_num [audioEvent, finalizeEvent, completeEvent]⟩
    · simp only [ha, if_false, List.nil_append, List.mem_cons, List.not_mem_nil, or_false] at he
      rcases he with rfl | rfl <;>
        refine ⟨by norm_num [stageIdx, finalizeEvent, completeEvent], by
          norm_num [finalizeEvent, completeEvent]⟩
  have hRest4 : ∀ e ∈ [combineEvent] ++ ((if 0 < a then [audioEvent] else []) ++ [finalizeEvent, completeEvent]),
      2 ≤ stageIdx e.stage ∧ 70 ≤ e.progress := by
    intro e he
    rcases List.mem_append.mp he with hc | ht
    · rw [List.mem_singleton] at hc
      subst hc
      exact ⟨by norm_num [stageIdx, combineEvent], by norm_num [combineEvent]⟩
    · obtain ⟨h1, h2⟩ := hAfterCombine e ht
      exact ⟨h1, by linarith⟩
  have hRest3 : ∀ e ∈ (List.range' 0 n).map (encEvent n) ++ ([combineEvent] ++
      ((if 0 < a then [audioEvent] else []) ++ [finalizeEvent, completeEvent])),
      2 ≤ stageIdx e.stage ∧ 50 ≤ e.progress := by
    intro e he
    rcases List.mem_append.mp he with hE | ht
    · obtain ⟨h1, h2, _⟩ := hEmem e hE
      exact ⟨le_of_eq h1.symm, h2⟩
    · obtain ⟨h1, h2⟩ := hRest4 e ht
      exact ⟨h1, by linarith⟩
  have hRest2 : ∀ e ∈ [encStartEvent] ++ ((List.range' 0 n).map (encEvent n) ++ ([combineEvent] ++
      ((if 0 < a then [audioEvent] else []) ++ [finalizeEvent, completeEvent]))),
      2 ≤ stageIdx e.stage ∧ 50 ≤ e.progress := by
    intro e he
    rcases List.mem_append.mp he with hc | ht
    · rw [List.mem_singleton] at hc
      subst hc
      exact ⟨by norm_num [stageIdx, encStartEvent], by norm_num [encStartEvent]⟩
    · exact hRest3 e ht
  have hChainPair : List.Chain' (fun e1 e2 => stageIdx e1.stage ≤ stageIdx e2.stage ∧ e1.progress ≤ e2.progress)
      [finalizeEvent, completeEvent] := by
    refine List.chain'_pair.mpr ?_
    exact ⟨by norm_num [stageIdx, finalizeEvent, completeEvent], by
      norm_num [finalizeEvent, completeEvent]⟩
  apply chain'_glue
  · simp
  · apply chain'_glue
    · exact chain'_map_range' _ _ (fun j => ⟨le_refl _, prepEvent_step n j⟩) n 0
    · apply chain'_glue
      · simp
      · apply chain'_glue
        · exact chain'_map_range' _ _ (fun j => ⟨le_refl _, encEvent_step n j⟩) n 0
        · apply chain'_glue
          · simp
          · apply chain'_glue
            · split <;> simp
            · exact hChainPair
            · intro x hx y hy
              by_cases ha : 0 < a
              · simp only [ha, if_true, List.mem_singleton] at hx
                subst hx
                simp only [List.mem_cons, List.not_mem_nil, or_false] at hy
                rcases hy with rfl | rfl <;>
                  exact ⟨by norm_num [stageIdx, audioEvent, finalizeEvent, completeEvent], by
                    norm_num [audioEvent, finalizeEvent, completeEvent]⟩
              · simp [ha] at hx
          · intro x hx y hy
            rw [List.mem_singleton] at hx
            subst hx
            obtain ⟨h1, h2⟩ := hAfterCombine y hy
            exact ⟨by simpa [stageIdx, combineEvent] using h1, by
              have : (combineEvent).progress = 70 := rfl
              rw [this]
              linarith⟩
        · intro x hx y hy
          obtain ⟨hs, _, hub⟩ := hEmem x hx
          obtain ⟨h1, h2⟩ := hRest4 y hy
          exact ⟨by rw [hs]; exact h1, by linarith⟩
      · intro x hx y hy
        rw [List.mem_singleton] at hx
        subst hx
        obtain ⟨h1, h2⟩ := hRest3 y hy
        exact ⟨by simpa [stageIdx, encStartEvent] using h1, by
          have : (encStartEvent).progress = 50 := rfl
          rw [this]
          linarith⟩
    · intro x hx y hy
      obtain ⟨hs, _, hub⟩ := hPmem x hx
      obtain ⟨h1, h2⟩ := hRest2 y hy
      exact ⟨by rw [hs]; omega, by linarith⟩
  · intro x hx y hy
    rw [List.mem_singleton] at hx
    subst hx
    rcases List.mem_append.mp hy with hP | ht
    · obtain ⟨hs, hlb, _⟩ := hPmem y hP
      refine ⟨?_, ?_⟩
      · have h0 : stageIdx (prepStartEvent).stage = 1 := rfl
        omega
      · have : (prepStartEvent).progress = 10 := rfl
        rw [this]
        linarith
    · obtain ⟨h1, h2⟩ := hRest2 y ht
      refine ⟨?_, ?_⟩
      · have h0 : stageIdx (prepStartEvent).stage = 1 := rfl
        omega
      · have : (prepStartEvent).progress = 10 := rfl
        rw [this]
        linarith

/-- The success trace always ends with the `complete`/100 event. -/
theorem mainTraceOk_getLast (n a : Nat) : (mainTraceOk n a).getLast? = some completeEvent := by
  have hform : mainTraceOk n a =
      (prepStartEvent :: (List.range' 0 n).map (prepEvent n)
        ++ encStartEvent :: (List.range' 0 n).map (encEvent n)
        ++ [combineEvent]
        ++ (if 0 < a then [audioEvent] else [])
        ++ [finalizeEvent]) ++ [completeEvent] := by
    simp [mainTraceOk]
  rw [hform, List.getLast?_concat]

/-- C2 amended: on a successful run the reported stages are non-decreasing
under `loading < preparing < encoding < finalizing < complete` and the
final event is `complete` with progress exactly 100; the progress values
are non-decreasing over all events from the preparing stage onward (i.e.
after the load events, which a run that loads the engine ends at progress
100 before preparing restarts at 10). -/
theorem generateVideo_progress_monotone_amended (env : FFmpegEnv) (alreadyLoaded : Bool)
    (scenes : List VideoScene)
    (hload : alreadyLoaded = true ∨ env.loadOk = true)
    (himg : ∀ sc ∈ scenes, env.fetchOk sc.imageUrl = true)
    (henc : ∀ i, i < scenes.length → env.segmentOk i = true)
    (hcat : env.concatOk = true) :
    (∃ out, (generateVideoRun env alreadyLoaded scenes).2 = Except.ok out) ∧
    List.Chain' (fun e1 e2 => stageIdx e1.stage ≤ stageIdx e2.stage)
      (generateVideoRun env alreadyLoaded scenes).1 ∧
    List.Chain' (fun e1 e2 => e1.progress ≤ e2.progress)
      ((generateVideoRun env alreadyLoaded scenes).1.drop (if alreadyLoaded then 0 else 2)) ∧
    (generateVideoRun env alreadyLoaded scenes).1.getLast? = some completeEvent := by
  have hrun := generateVideoRun_ok env alreadyLoaded scenes hload himg henc hcat
  have h1 : (generateVideoRun env alreadyLoaded scenes).1 =
      (if alreadyLoaded then [] else [loadStartEvent, loadDoneEvent])
        ++ mainTraceOk scenes.length (scenes.filter (fun sc => sc.audioUrl.isSome)).length := by
    rw [hrun]
  refine ⟨⟨_, by rw [hrun]⟩, ?_, ?_, ?_⟩
  · rw [h1]
    apply chain'_glue
    · cases alreadyLoaded <;> simp [List.chain'_pair, stageIdx, loadStartEvent, loadDoneEvent]
    · exact (mainTraceOk_chain _ _).imp (fun a b h => h.1)
    · intro x hx y hy
      have hx0 : stageIdx x.stage = 0 := by
        cases alreadyLoaded
        · simp only [Bool.false_eq_true, if_false, List.mem_cons, List.not_mem_nil, or_false] at hx
          rcases hx with rfl | rfl <;> rfl
        · simp at hx
      omega
  · rw [h1]
    cases alreadyLoaded
    · simp only [Bool.false_eq_true, if_false, List.cons_append, List.nil_append,
        List.drop_succ_cons, List.drop_zero]
      exact (mainTraceOk_chain _ _).imp (fun a b h => h.2)
    · simp only [if_true, List.nil_append, List.drop_zero]
      exact (mainTraceOk_chain _ _).imp (fun a b h => h.2)
  · rw [h1, List.getLast?_append, mainTraceOk_getLast]
    rfl

/-- Witness for the amended C2 at a concrete input. -/
theorem generateVideo_progress_monotone_witness :
    (∃ out, (generateVideoRun
        { fetchOk := fun _ => true, segmentOk := fun _ => true,
          concatOk := true, audioMergeOk := true, loadOk := true }
        true [ { imageUrl := "img0", duration := 2, audioUrl := none } ]).2 = Except.ok out) ∧
    List.Chain' (fun e1 e2 => stageIdx e1.stage ≤ stageIdx e2.stage)
      (generateVideoRun
        { fetchOk := fun _ => true, segmentOk := fun _ => true,
          concatOk := true, audioMergeOk := true, loadOk := true }
        true [ { imageUrl := "img0", duration := 2, audioUrl := none } ]).1 ∧
    List.Chain' (fun e1 e2 => e1.progress ≤ e2.progress)
      ((generateVideoRun
        { fetchOk := fun _ => true, segmentOk := fun _ => true,
          concatOk := true, audioMergeOk := true, loadOk := true }
        true [ { imageUrl := "img0", duration := 2, audioUrl := none } ]).1.drop (if true then 0 else 2)) ∧
    (generateVideoRun
        { fetchOk := fun _ => true, segmentOk := fun _ => true,
          concatOk := true, audioMergeOk := true, loadOk := true }
        true [ { imageUrl := "img0", duration := 2, audioUrl := none } ]).1.getLast? = some completeEvent :=
  generateVideo_progress_monotone_amended
    { fetchOk := fun _ => true, segmentOk := fun _ => true,
      concatOk := true, audioMergeOk := true, loadOk := true }
    true [ { imageUrl := "img0", duration := 2, audioUrl := none } ]
    (Or.inl rfl) (by decide) (fun i _ => rfl) rfl

/-- C2 counterexample: a successful run that loads the engine reports
progress 0, 100 during loading, then 10 at the start of preparing — the
progress values over the whole run are not non-decreasing. -/
theorem generateVideo_progress_monotone_counterexample :
    ¬ List.Chain' (fun e1 e2 => e1.progress ≤ e2.progress)
      (generateVideoRun
        { fetchOk := fun _ => true, segmentOk := fun _ => true,
          concatOk := true, audioMergeOk := true, loadOk := true }
        false [ { imageUrl := "img0", duration := 2, audioUrl := none } ]).1 := by
  intro hch
  have hrun := generateVideoRun_ok
    { fetchOk := fun _ => true, segmentOk := fun _ => true,
      concatOk := true, audioMergeOk := true, loadOk := true }
    false [ { imageUrl := "img0", duration := 2, audioUrl := none } ]
    (Or.inr rfl) (fun sc _ => rfl) (fun i _ => rfl) rfl
  rw [hrun] at hch
  have hch' : List.Chain' (fun e1 e2 : ProgressEvent => e1.progress ≤ e2.progress)
      (loadStartEvent :: loadDoneEvent :: prepStartEvent ::
        ((List.range' 0 1).map (prepEvent 1)
          ++ encStartEvent :: (List.range' 0 1).map (encEvent 1)
          ++ [combineEvent] ++ [] ++ [finalizeEvent, completeEvent])) := hch
  have h1 := (List.chain'_cons.mp hch').2
  have h2 := (List.chain'_cons.mp h1).1
  have h2' : (100 : ℚ) ≤ 10 := h2
  norm_num at h2'
